import Mathlib

/-!
# The `serf status` command (`command/status.go`)

A shallow embedding of `StatusCommand.Run`.  The command talks to three
collaborators that live outside `status.go`: the flag parser, the RPC client
and the user interface.  The first two are inputs of the model (a `World`);
every call the command makes on the client or on the user interface is
recorded, in program order, in an event trace returned next to the exit code.
Go strings are Lean strings, a Go `error` is the string `%s` renders it to.
-/

namespace StatusCommand

/-! ## Help text -/

/-- The raw string literal `helpText` of `Help()`. -/
def helpText : String :=
  "\n" ++
  "Usage: serf status [expectedStatus [newStatus]]\n" ++
  "\n" ++
  "  Without arguments, the 'status' command causes the agent to print out the serfs currently\n" ++
  "  stored status string. With a few exceptions, the serf will always currently see itself as\n" ++
  "  online, so this value cannot be interpreted to mean \"what the others see my status as\"...\n" ++
  "  or detect when just this serf is disconnected.\n" ++
  "\n" ++
  "  With one argument (the expected status) the status command will act as a test, returning an\n" ++
  "  error exit code if the current state does not match the expected state.\n" ++
  "\n" ++
  "  With two arguments (the expected and new status), the newly given status will be broadcast\n" ++
  "  to the serf network, but only if the current status matches the expected one. On startup\n" ++
  "  the default status is \"alive\".\n" ++
  "\n" ++
  "Options:\n" ++
  "\n" ++
  "  -rpc-addr=127.0.0.1:7373  RPC address of the Serf agent.\n"

/-- White space in the sense of Go `unicode.IsSpace`. -/
def isSpace (c : Char) : Bool :=
  let n := c.toNat
  (9 ≤ n && n ≤ 13) || n == 32 || n == 0x85 || n == 0xA0 || n == 0x1680 ||
  (0x2000 ≤ n && n ≤ 0x200A) || n == 0x2028 || n == 0x2029 || n == 0x202F ||
  n == 0x205F || n == 0x3000

/-- Go `strings.TrimSpace`: drop leading and trailing white space. -/
def TrimSpace (s : String) : String :=
  String.mk ((s.toList.dropWhile isSpace).reverse.dropWhile isSpace).reverse

/-- The method `Help()`: the help text without its surrounding white space. -/
def Help : String := TrimSpace helpText

/-! ## Case-insensitive comparison -/

/-- Go `strings.EqualFold` on the runes of the two strings.  Equal runes match;
an ASCII upper-case letter matches its lower-case letter; every other pair of
distinct runes `lo < hi` is settled by the walk along `unicode.SimpleFold`,
whose table is the input `reaches lo hi`.  When one side is exhausted the
strings are equal only if both are. -/
def EqualFoldRunes (reaches : Nat → Nat → Bool) : List Nat → List Nat → Bool
  | sr :: s, tr :: t =>
    if tr = sr then EqualFoldRunes reaches s t
    else
      let lo := if tr < sr then tr else sr
      let hi := if tr < sr then sr else tr
      if hi < 128 ∧ 65 ≤ lo ∧ lo ≤ 90 then
        if hi = lo + 97 - 65 then EqualFoldRunes reaches s t else false
      else if reaches lo hi then EqualFoldRunes reaches s t else false
  | [], t => t.isEmpty
  | _ :: _, [] => false

/-- Go `strings.EqualFold(s, t)`. -/
def EqualFold (reaches : Nat → Nat → Bool) (s t : String) : Bool :=
  EqualFoldRunes reaches (s.toList.map Char.toNat) (t.toList.map Char.toNat)

/-- Case-fold equality of two runes, in the words of the specification: the
runes are the same, or they are an ASCII letter in its two cases, or the
Unicode fold table joins them. -/
def runeFoldEq (reaches : Nat → Nat → Bool) (a b : Nat) : Bool :=
  a == b ||
  (if max a b < 128 ∧ 65 ≤ min a b ∧ min a b ≤ 90 then max a b == min a b + 32
   else reaches (min a b) (max a b))

/-- Case-insensitive comparison of status tokens, in the words of the
specification: case folding only, no trimming.  The two tokens have the same
number of runes and are case-fold equal position by position. -/
def caseInsensitiveEq (reaches : Nat → Nat → Bool) (s t : String) : Bool :=
  s.toList.length == t.toList.length &&
  (List.zip s.toList t.toList).all (fun p => runeFoldEq reaches p.1.toNat p.2.toNat)

/-! ## The world around the command -/

/-- What a connected RPC client answers to the one call the command makes on
it.  A Go `error` is represented by its rendering under `%s`. -/
structure Client where
  /-- Result of `client.Status()`: the status, or the error. -/
  Status : Except String String
  /-- Result of `client.UpdateStatus(expected, new)`: `none` is a nil error. -/
  UpdateStatus : String → String → Option String

/-- The collaborators of `Run` that live outside `status.go`. -/
structure World where
  /-- The flag set with `RPCAddrFlag` registered, `cmdFlags.Parse(args)`:
  `none` is a parse error, `some (rpcAddr, rest)` gives the value of the
  address flag and `cmdFlags.Args()`. -/
  Parse : List String → Option (String × List String)
  /-- The function `RPCClient(addr)`: a connected client, or the error. -/
  RPCClient : String → Except String Client
  /-- The `unicode.SimpleFold` table as used by `strings.EqualFold`. -/
  reaches : Nat → Nat → Bool

/-- The calls `Run` makes on its collaborators. -/
inductive Event where
  /-- The call `c.Ui.Output(s)`. -/
  | Output (s : String)
  /-- The call `c.Ui.Error(s)`. -/
  | Error (s : String)
  /-- The call `RPCClient(addr)`. -/
  | Connect (addr : String)
  /-- The call `client.Status()`. -/
  | Status
  /-- The call `client.UpdateStatus(expected, new)`. -/
  | UpdateStatus (expected new : String)
  /-- The deferred call `client.Close()`. -/
  | Close
  deriving DecidableEq, Repr

/-! ## Run -/

/-- The verb `%s` of `fmt.Sprintf` applied to a Go `error`: the rendering of
the error, and `%!s(<nil>)` for the nil error. -/
def sprintS : Option String → String
  | some e => e
  | none => "%!s(<nil>)"

/-- Lines 75-107 of `Run`: the three mode blocks and the final diagnostic,
executed with a connected client; `err` is the variable `err` of line 68.
Returns the exit code and the events.  In the Query block the result of
`client.Status()` is bound by the `if` statement of line 76 and is out of scope
at line 80, which formats the `err` of line 68; in the Check block the report
is in the `else` branch, where the result of `Status()` is in scope. -/
def runConnected (w : World) (client : Client) (err : Option String)
    (args : List String) (expectedStatus newStatus : String) : Int × List Event :=
  if args.length = 0 then
    match client.Status with
    | .ok status => (0, [.Status, .Output status])
    | .error _ => (1, [.Status, .Error ("Error getting status: " ++ sprintS err)])
  else
    -- the block `if len(args)==1`: `some code` when it returned
    let block1 : Option Int × List Event :=
      if args.length = 1 then
        match client.Status with
        | .ok status =>
          if EqualFold w.reaches status expectedStatus then (some 0, [.Status])
          else (some 1, [.Status, .Output status])
        | .error err =>
          (none, [.Status, .Error ("Error getting status: " ++ sprintS (some err))])
      else (none, [])
    match block1 with
    | (some code, evs) => (code, evs)
    | (none, evs) =>
      if args.length = 2 then
        match client.UpdateStatus expectedStatus newStatus with
        | some err =>
          (1, evs ++ [.UpdateStatus expectedStatus newStatus,
                      .Error ("Error updating status: " ++ sprintS (some err))])
        | none =>
          (0, evs ++ [.UpdateStatus expectedStatus newStatus,
                      .Output "Graceful status update"])
      else
        (1, evs ++ [.Error "Error, reached end of function"])

/-- The method `StatusCommand.Run(args)`: exit code and event trace.  On a
flag parse error the flag set calls `cmdFlags.Usage` once, which is
`c.Ui.Output(c.Help())`, and `Run` returns 1.  The deferred `client.Close()`
runs when `Run` returns, hence after every other event of the run. -/
def Run (w : World) (args : List String) : Int × List Event :=
  match w.Parse args with
  | none => (1, [.Output Help])
  | some (rpcAddr, args) =>
    if args.length > 2 then
      (1, [.Error ("Too many command line arguments. " ++
                   "Only an expectedStatus and newStatus may be specified."),
           .Error "",
           .Error Help])
    else
      let expectedStatus := if args.length ≥ 1 then args.getD 0 "" else ""
      let newStatus := if args.length ≥ 2 then args.getD 1 "" else ""
      match w.RPCClient rpcAddr with
      | .error err =>
        (1, [.Connect rpcAddr,
             .Error ("Error connecting to Serf agent: " ++ sprintS (some err))])
      | .ok client =>
        -- the `err` of line 68 is nil from here on
        let r := runConnected w client none args expectedStatus newStatus
        (r.1, .Connect rpcAddr :: r.2 ++ [.Close])

/-! ## Reading a trace -/

/-- The strings passed to `Ui.Output`, in order. -/
def outputs : List Event → List String
  | [] => []
  | .Output s :: es => s :: outputs es
  | _ :: es => outputs es

/-- The strings passed to `Ui.Error`, in order. -/
def errors : List Event → List String
  | [] => []
  | .Error s :: es => s :: errors es
  | _ :: es => errors es

/-- The RPC calls (`Status`, `UpdateStatus`) of a trace, in order. -/
def rpcCalls : List Event → List Event
  | [] => []
  | .Status :: es => .Status :: rpcCalls es
  | .UpdateStatus a b :: es => .UpdateStatus a b :: rpcCalls es
  | _ :: es => rpcCalls es

/-- The client events (connection, RPC calls, close) of a trace, in order. -/
def clientEvents : List Event → List Event
  | [] => []
  | .Output _ :: es => clientEvents es
  | .Error _ :: es => clientEvents es
  | e :: es => e :: clientEvents es

/-! ## A concrete world -/

/-- The name part and the value part of `name=value`, cut at the first `=`. -/
def cutEq : List Char → Option (List Char × List Char)
  | [] => none
  | c :: cs =>
    if c = '=' then some ([], cs)
    else match cutEq cs with
      | some (n, v) => some (c :: n, v)
      | none => none

/-- Go `flag.FlagSet.Parse` for a flag set whose only flag is the string flag
`rpc-addr` of the help text; the first argument is the current value of the
flag.  An argument that is not of the form `-x...` ends the flags, as does
`--`; `-name=value` and `-name value` set the flag; any other flag, `-h` and
`-help` included, is an error. -/
def flagParse : String → List String → Option (String × List String)
  | addr, [] => some (addr, [])
  | addr, s :: rest =>
    match s.toList with
    | '-' :: c :: cs =>
      if c = '-' ∧ cs = [] then some (addr, rest)
      else
        match (if c = '-' then cs else c :: cs) with
        | [] => none
        | n0 :: ns =>
          if n0 = '-' ∨ n0 = '=' then none
          else
            match cutEq ns with
            | some (n, v) =>
              if n0 :: n = "rpc-addr".toList then flagParse (String.mk v) rest else none
            | none =>
              if n0 :: ns = "rpc-addr".toList then
                match rest with
                | [] => none
                | v :: rest2 => flagParse v rest2
              else none
    | _ => some (addr, s :: rest)

/-- A world with the Go flag parser, the default agent address, an agent that
accepts the connection and answers as given, and a fold table without
entries. -/
def stubWorld (status : Except String String)
    (update : String → String → Option String) : World where
  Parse := flagParse "127.0.0.1:7373"
  RPCClient := fun _ => .ok { Status := status, UpdateStatus := update }
  reaches := fun _ _ => false

/-- A world in which no agent listens: every connection attempt fails. -/
def deadWorld (err : String) : World where
  Parse := flagParse "127.0.0.1:7373"
  RPCClient := fun _ => .error err
  reaches := fun _ _ => false

/-! ## Run, mode by mode -/

theorem EqualFoldRunes_eq (reaches : Nat → Nat → Bool) (s t : List Char) :
    EqualFoldRunes reaches (s.map Char.toNat) (t.map Char.toNat) =
      (s.length == t.length &&
        (List.zip s t).all (fun p => runeFoldEq reaches p.1.toNat p.2.toNat)) := by
  induction s generalizing t with
  | nil => cases t <;> simp [EqualFoldRunes]
  | cons a s ih =>
    cases t with
    | nil => simp [EqualFoldRunes]
    | cons b t =>
      simp only [List.map_cons, EqualFoldRunes, ih, List.length_cons, List.zip_cons_cons,
        List.all_cons, runeFoldEq]
      by_cases hab : b.toNat = a.toNat
      · simp [hab]
      · have hba : ¬ a.toNat = b.toNat := fun h => hab h.symm
        by_cases hlt : b.toNat < a.toNat
        · have h1 : min a.toNat b.toNat = b.toNat := Nat.min_eq_right (Nat.le_of_lt hlt)
          have h2 : max a.toNat b.toNat = a.toNat := Nat.max_eq_left (Nat.le_of_lt hlt)
          simp only [hab, hlt, if_true, if_false, h1, h2, hba, beq_iff_eq, Bool.false_or]
          split <;> split <;> simp_all
        · have hle : a.toNat ≤ b.toNat := Nat.le_of_not_lt hlt
          have h1 : min a.toNat b.toNat = a.toNat := Nat.min_eq_left hle
          have h2 : max a.toNat b.toNat = b.toNat := Nat.max_eq_right hle
          simp only [hab, hlt, if_true, if_false, h1, h2, hba, beq_iff_eq, Bool.false_or]
          split <;> split <;> simp_all

/-- The comparison made by the code, `strings.EqualFold`, is the
case-insensitive comparison of the specification. -/
theorem EqualFold_eq_caseInsensitiveEq (reaches : Nat → Nat → Bool) (s t : String) :
    EqualFold reaches s t = caseInsensitiveEq reaches s t := by
  unfold EqualFold caseInsensitiveEq
  exact EqualFoldRunes_eq reaches s.toList t.toList

/-- Usage error: more than two positional arguments. -/
theorem Run_many (w : World) (args rest : List String) (addr : String)
    (hparse : w.Parse args = some (addr, rest)) (hlen : 2 < rest.length) :
    Run w args =
      (1, [.Error ("Too many command line arguments. " ++
                   "Only an expectedStatus and newStatus may be specified."),
           .Error "", .Error Help]) := by
  simp [Run, hparse, hlen]

/-- Connection failure with at most two positional arguments. -/
theorem Run_connect_error (w : World) (args rest : List String) (addr err : String)
    (hparse : w.Parse args = some (addr, rest)) (hlen : rest.length ≤ 2)
    (hconn : w.RPCClient addr = .error err) :
    Run w args =
      (1, [.Connect addr, .Error ("Error connecting to Serf agent: " ++ err)]) := by
  have h : ¬ 2 < rest.length := Nat.not_lt.mpr hlen
  simp [Run, hparse, h, hconn, sprintS]

/-- Query mode with a connected client. -/
theorem Run_query (w : World) (args : List String) (addr : String) (client : Client)
    (hparse : w.Parse args = some (addr, [])) (hconn : w.RPCClient addr = .ok client) :
    Run w args =
      match client.Status with
      | .ok status => (0, [.Connect addr, .Status, .Output status, .Close])
      | .error _ =>
        (1, [.Connect addr, .Status, .Error "Error getting status: %!s(<nil>)", .Close]) := by
  simp only [Run, hparse, hconn, runConnected, sprintS]
  cases client.Status <;> simp

/-- Check mode with a connected client. -/
theorem Run_check (w : World) (args : List String) (addr expected : String)
    (client : Client)
    (hparse : w.Parse args = some (addr, [expected]))
    (hconn : w.RPCClient addr = .ok client) :
    Run w args =
      match client.Status with
      | .ok status =>
        if EqualFold w.reaches status expected then (0, [.Connect addr, .Status, .Close])
        else (1, [.Connect addr, .Status, .Output status, .Close])
      | .error err =>
        (1, [.Connect addr, .Status, .Error ("Error getting status: " ++ err),
             .Error "Error, reached end of function", .Close]) := by
  simp only [Run, hparse, hconn, runConnected, sprintS]
  cases client.Status with
  | ok status => by_cases h : EqualFold w.reaches status expected = true <;> simp [h]
  | error err => simp

/-- CompareAndSet mode with a connected client. -/
theorem Run_update (w : World) (args : List String) (addr a0 a1 : String)
    (client : Client)
    (hparse : w.Parse args = some (addr, [a0, a1]))
    (hconn : w.RPCClient addr = .ok client) :
    Run w args =
      match client.UpdateStatus a0 a1 with
      | some err =>
        (1, [.Connect addr, .UpdateStatus a0 a1,
             .Error ("Error updating status: " ++ err), .Close])
      | none =>
        (0, [.Connect addr, .UpdateStatus a0 a1,
             .Output "Graceful status update", .Close]) := by
  simp only [Run, hparse, hconn, runConnected, sprintS]
  rcases h : client.UpdateStatus a0 a1 with _ | err <;> simp [h]

/-! ## The claims -/

/-- C1 (Check mode postcondition).  With one positional argument `expected`
and a client whose `Status()` succeeds with `S`, `Run` returns 0 and emits no
output exactly when `S` equals `expected` under case-insensitive comparison
(folding only, no trimming); then the user interface is not called at all.
Otherwise it emits exactly `S` as output and returns 1. -/
theorem check_mode_postcondition (w : World) (args : List String)
    (addr expected S : String) (client : Client)
    (hparse : w.Parse args = some (addr, [expected]))
    (hconn : w.RPCClient addr = .ok client)
    (hstatus : client.Status = .ok S) :
    (((Run w args).1 = 0 ∧ outputs (Run w args).2 = []) ↔
        caseInsensitiveEq w.reaches S expected = true) ∧
    (caseInsensitiveEq w.reaches S expected = true →
        Run w args = (0, [.Connect addr, .Status, .Close])) ∧
    (caseInsensitiveEq w.reaches S expected = false →
        Run w args = (1, [.Connect addr, .Status, .Output S, .Close]) ∧
        outputs (Run w args).2 = [S] ∧ errors (Run w args).2 = []) := by
  rw [Run_check w args addr expected client hparse hconn, hstatus,
    ← EqualFold_eq_caseInsensitiveEq]
  by_cases h : EqualFold w.reaches S expected = true
  · simp [h, outputs]
  · simp [h, outputs, errors]

/-- Witness for C1: expected "alive" against "Alive" gives 0 and no output;
expected "alive" against "dead" gives 1 with output "dead". -/
theorem check_mode_postcondition_witness :
    Run (stubWorld (.ok "Alive") (fun _ _ => none)) ["alive"] =
      (0, [.Connect "127.0.0.1:7373", .Status, .Close]) ∧
    Run (stubWorld (.ok "dead") (fun _ _ => none)) ["alive"] =
      (1, [.Connect "127.0.0.1:7373", .Status, .Output "dead", .Close]) :=
  ⟨(check_mode_postcondition (stubWorld (.ok "Alive") (fun _ _ => none)) ["alive"]
      "127.0.0.1:7373" "alive" "Alive" _ (by decide) rfl rfl).2.1 (by decide),
   ((check_mode_postcondition (stubWorld (.ok "dead") (fun _ _ => none)) ["alive"]
      "127.0.0.1:7373" "alive" "dead" _ (by decide) rfl rfl).2.2 (by decide)).1⟩

/-- C2 (Usage error).  With more than two positional arguments after flag
parsing, `Run` returns 1, emits the too-many-arguments error, an empty line
and the full help text on the error channel, and makes no client call: no
connection is opened and neither `Status()` nor `UpdateStatus()` is invoked. -/
theorem usage_error_no_client_call (w : World) (args rest : List String) (addr : String)
    (hparse : w.Parse args = some (addr, rest)) (hlen : 2 < rest.length) :
    (Run w args).1 = 1 ∧
    (Run w args).2 =
      [.Error ("Too many command line arguments. " ++
               "Only an expectedStatus and newStatus may be specified."),
       .Error "", .Error Help] ∧
    clientEvents (Run w args).2 = [] ∧ outputs (Run w args).2 = [] := by
  rw [Run_many w args rest addr hparse hlen]
  simp [clientEvents, outputs]

/-- Witness for C2: three positional arguments after an address flag. -/
theorem usage_error_no_client_call_witness :
    (Run (stubWorld (.ok "alive") (fun _ _ => none))
        ["-rpc-addr=10.0.0.1:7373", "alive", "degraded", "extra"]).1 = 1 ∧
    clientEvents (Run (stubWorld (.ok "alive") (fun _ _ => none))
        ["-rpc-addr=10.0.0.1:7373", "alive", "degraded", "extra"]).2 = [] :=
  have h := usage_error_no_client_call (stubWorld (.ok "alive") (fun _ _ => none))
    ["-rpc-addr=10.0.0.1:7373", "alive", "degraded", "extra"]
    ["alive", "degraded", "extra"] "10.0.0.1:7373" (by decide) (by decide)
  ⟨h.1, h.2.2.1⟩

/-- C3 (CompareAndSet success).  With two positional arguments `a0`, `a1` and
a client whose `UpdateStatus(a0, a1)` succeeds, `Run` calls `UpdateStatus`
exactly once, with expected `a0` and new `a1`, never calls `Status()`, emits
the confirmation message as output and returns 0. -/
theorem compare_and_set_success (w : World) (args : List String)
    (addr a0 a1 : String) (client : Client)
    (hparse : w.Parse args = some (addr, [a0, a1]))
    (hconn : w.RPCClient addr = .ok client)
    (hupdate : client.UpdateStatus a0 a1 = none) :
    Run w args =
      (0, [.Connect addr, .UpdateStatus a0 a1, .Output "Graceful status update", .Close]) ∧
    rpcCalls (Run w args).2 = [.UpdateStatus a0 a1] ∧
    outputs (Run w args).2 = ["Graceful status update"] ∧
    errors (Run w args).2 = [] := by
  rw [Run_update w args addr a0 a1 client hparse hconn, hupdate]
  simp [rpcCalls, outputs, errors]

/-- Witness for C3: the invocation `status alive degraded`. -/
theorem compare_and_set_success_witness :
    Run (stubWorld (.ok "alive") (fun _ _ => none)) ["alive", "degraded"] =
      (0, [.Connect "127.0.0.1:7373", .UpdateStatus "alive" "degraded",
           .Output "Graceful status update", .Close]) :=
  (compare_and_set_success (stubWorld (.ok "alive") (fun _ _ => none))
    ["alive", "degraded"] "127.0.0.1:7373" "alive" "degraded" _ (by decide) rfl rfl).1

/-- C4 (Query success).  With no positional argument and a client whose
`Status()` succeeds with `S`, `Run` emits exactly `S` as its only output,
nothing on the error channel, and returns 0. -/
theorem query_success (w : World) (args : List String) (addr S : String)
    (client : Client)
    (hparse : w.Parse args = some (addr, []))
    (hconn : w.RPCClient addr = .ok client)
    (hstatus : client.Status = .ok S) :
    Run w args = (0, [.Connect addr, .Status, .Output S, .Close]) ∧
    outputs (Run w args).2 = [S] ∧ errors (Run w args).2 = [] := by
  rw [Run_query w args addr client hparse hconn, hstatus]
  simp [outputs, errors]

/-- Witness for C4: a bare `status` against an agent reporting "alive". -/
theorem query_success_witness :
    Run (stubWorld (.ok "alive") (fun _ _ => none)) [] =
      (0, [.Connect "127.0.0.1:7373", .Status, .Output "alive", .Close]) :=
  (query_success (stubWorld (.ok "alive") (fun _ _ => none)) []
    "127.0.0.1:7373" "alive" _ (by decide) rfl rfl).1

/-- C5 (Exit-code characterisation).  For every argument list and every
world, `Run` returns 0 or 1, and it returns 0 exactly when the flags parsed,
the connection was established and one of the three successes occurred: no
positional argument and `Status()` succeeded; one positional argument and
`Status()` succeeded with a status case-insensitively equal to it; two
positional arguments and `UpdateStatus` succeeded. -/
theorem exit_code_characterisation (w : World) (args : List String) :
    ((Run w args).1 = 0 ∨ (Run w args).1 = 1) ∧
    ((Run w args).1 = 0 ↔
      ∃ addr rest client,
        w.Parse args = some (addr, rest) ∧ w.RPCClient addr = .ok client ∧
        ((rest = [] ∧ ∃ S, client.Status = .ok S) ∨
         (∃ e S, rest = [e] ∧ client.Status = .ok S ∧
            caseInsensitiveEq w.reaches S e = true) ∨
         (∃ a b, rest = [a, b] ∧ client.UpdateStatus a b = none))) := by
  rcases hp : w.Parse args with _ | ⟨addr, rest⟩
  · simp [Run, hp]
  · rcases rest with _ | ⟨a, _ | ⟨b, _ | ⟨c, t⟩⟩⟩
    · rcases hc : w.RPCClient addr with err | client
      · rw [Run_connect_error w args [] addr err hp (by simp) hc]
        simp [hc]
      · rw [Run_query w args addr client hp hc]
        rcases hs : client.Status with err | S
        · simp [hc, hs]
        · exact ⟨Or.inl rfl,
            fun _ => ⟨addr, [], client, rfl, hc, Or.inl ⟨rfl, S, hs⟩⟩, fun _ => rfl⟩
    · rcases hc : w.RPCClient addr with err | client
      · rw [Run_connect_error w args [a] addr err hp (by simp) hc]
        simp [hc]
      · rw [Run_check w args addr a client hp hc]
        rcases hs : client.Status with err | S
        · simp [hc, hs]
        · by_cases h : EqualFold w.reaches S a = true
          · refine ⟨by simp [h], fun _ => ⟨addr, [a], client, rfl, hc,
              Or.inr (Or.inl ⟨a, S, rfl, hs, ?_⟩)⟩, fun _ => by simp [h]⟩
            rw [← EqualFold_eq_caseInsensitiveEq]
            exact h
          · simp [hc, hs, h, ← EqualFold_eq_caseInsensitiveEq]
    · rcases hc : w.RPCClient addr with err | client
      · rw [Run_connect_error w args [a, b] addr err hp (by simp) hc]
        simp [hc]
      · rw [Run_update w args addr a b client hp hc]
        rcases hu : client.UpdateStatus a b with _ | err
        · exact ⟨Or.inl rfl,
            fun _ => ⟨addr, [a, b], client, rfl, hc, Or.inr (Or.inr ⟨a, b, rfl, hu⟩)⟩,
            fun _ => rfl⟩
        · simp [hc, hu]
    · rw [Run_many w args (a :: b :: c :: t) addr hp (by simp)]
      simp

/-- C6 (RPC failures are reported with their cause), evaluated where it fails:
in Query mode with `Status()` failing with the error "EOF", `Run` returns 1 and
emits nothing on the output channel, but its one error message is
`Error getting status: %!s(<nil>)`, which does not contain the cause. -/
theorem query_failure_cause_not_reported :
    Run (stubWorld (.error "EOF") (fun _ _ => none)) [] =
      (1, [.Connect "127.0.0.1:7373", .Status,
           .Error "Error getting status: %!s(<nil>)", .Close]) ∧
    errors (Run (stubWorld (.error "EOF") (fun _ _ => none)) []).2 =
      ["Error getting status: %!s(<nil>)"] ∧
    outputs (Run (stubWorld (.error "EOF") (fun _ _ => none)) []).2 = [] := by
  decide

/-- C7 (Connection error).  With at most two positional arguments, if
establishing the connection fails with error `e`, `Run` emits an error message
that ends with `e`, returns 1 and attempts no RPC: neither `Status()` nor
`UpdateStatus()` is called, and `Close` is not called either. -/
theorem connection_error_no_rpc (w : World) (args rest : List String) (addr e : String)
    (hparse : w.Parse args = some (addr, rest)) (hlen : rest.length ≤ 2)
    (hconn : w.RPCClient addr = .error e) :
    Run w args = (1, [.Connect addr, .Error ("Error connecting to Serf agent: " ++ e)]) ∧
    rpcCalls (Run w args).2 = [] ∧ Event.Close ∉ (Run w args).2 := by
  rw [Run_connect_error w args rest addr e hparse hlen hconn]
  simp [rpcCalls]

/-- Witness for C7: `status alive` when no agent listens. -/
theorem connection_error_no_rpc_witness :
    Run (deadWorld "connection refused") ["alive"] =
      (1, [.Connect "127.0.0.1:7373",
           .Error "Error connecting to Serf agent: connection refused"]) :=
  (connection_error_no_rpc (deadWorld "connection refused") ["alive"] ["alive"]
    "127.0.0.1:7373" "connection refused" (by decide) (by decide) rfl).1

/-- C8 (Exactly one exit path), evaluated where it fails: in Check mode with a
failing `Status()` the run reports the failure and then goes on to the final
diagnostic, so two error messages are emitted. -/
theorem check_failure_reaches_end_of_function :
    Run (stubWorld (.error "EOF") (fun _ _ => none)) ["alive"] =
      (1, [.Connect "127.0.0.1:7373", .Status, .Error "Error getting status: EOF",
           .Error "Error, reached end of function", .Close]) := by
  decide

/-- C9 (Exactly one RPC per run).  With at most two positional arguments and
an established connection, the RPC calls of the run are exactly one call: one
`Status()` with zero or one argument, one `UpdateStatus` of the two arguments
with two, whatever the call returns.  Which call is made depends only on the
number of arguments. -/
theorem exactly_one_rpc (w : World) (args rest : List String) (addr : String)
    (client : Client)
    (hparse : w.Parse args = some (addr, rest)) (hlen : rest.length ≤ 2)
    (hconn : w.RPCClient addr = .ok client) :
    rpcCalls (Run w args).2 =
      [if rest.length = 2 then .UpdateStatus (rest.getD 0 "") (rest.getD 1 "")
       else .Status] := by
  rcases rest with _ | ⟨a, _ | ⟨b, _ | ⟨c, t⟩⟩⟩
  · rw [Run_query w args addr client hparse hconn]
    rcases client.Status with err | S <;> simp [rpcCalls]
  · rw [Run_check w args addr a client hparse hconn]
    rcases client.Status with err | S
    · simp [rpcCalls]
    · by_cases h : EqualFold w.reaches S a = true <;> simp [h, rpcCalls]
  · rw [Run_update w args addr a b client hparse hconn]
    rcases client.UpdateStatus a b with _ | err <;> simp [rpcCalls]
  · simp at hlen

/-- Witness for C9: a failing `Status()` in Check mode is not followed by a
second call. -/
theorem exactly_one_rpc_witness :
    rpcCalls (Run (stubWorld (.error "EOF") (fun _ _ => none)) ["alive"]).2 = [.Status] :=
  exactly_one_rpc (stubWorld (.error "EOF") (fun _ _ => none)) ["alive"] ["alive"]
    "127.0.0.1:7373" _ (by decide) (by decide) rfl

/-- C10 (Connection release on every exit path).  With at most two positional
arguments and a successfully acquired connection, the client events of the run
are: the connection, acquired once; the one RPC call; `Close`, called once.
`Close` is the last event of the whole trace. -/
theorem connection_released (w : World) (args rest : List String) (addr : String)
    (client : Client)
    (hparse : w.Parse args = some (addr, rest)) (hlen : rest.length ≤ 2)
    (hconn : w.RPCClient addr = .ok client) :
    clientEvents (Run w args).2 =
      [.Connect addr,
       if rest.length = 2 then .UpdateStatus (rest.getD 0 "") (rest.getD 1 "")
       else .Status,
       .Close] ∧
    (Run w args).2.getLast? = some .Close := by
  rcases rest with _ | ⟨a, _ | ⟨b, _ | ⟨c, t⟩⟩⟩
  · rw [Run_query w args addr client hparse hconn]
    rcases client.Status with err | S <;> simp [clientEvents]
  · rw [Run_check w args addr a client hparse hconn]
    rcases client.Status with err | S
    · simp [clientEvents]
    · by_cases h : EqualFold w.reaches S a = true <;> simp [h, clientEvents]
  · rw [Run_update w args addr a b client hparse hconn]
    rcases client.UpdateStatus a b with _ | err <;> simp [clientEvents]
  · simp at hlen

/-- Witness for C10: a Check-mode mismatch still closes the connection. -/
theorem connection_released_witness :
    clientEvents (Run (stubWorld (.ok "dead") (fun _ _ => none)) ["alive"]).2 =
      [.Connect "127.0.0.1:7373", .Status, .Close] ∧
    (Run (stubWorld (.ok "dead") (fun _ _ => none)) ["alive"]).2.getLast? = some .Close :=
  connection_released (stubWorld (.ok "dead") (fun _ _ => none)) ["alive"] ["alive"]
    "127.0.0.1:7373" _ (by decide) (by decide) rfl

end StatusCommand
